import Mathlib

/-!
Verification of the STARGENT agent-orchestration engine
(`app/agent/agent.py`, `app/agent/model_class.py`).

The Python source is shallowly embedded: dataclasses become structures,
the OpenAI transport / prompt files / tool implementations — the external
collaborators — become an explicit `Env` record of oracle functions, and
every `try`/`except` boundary becomes an `Except PyFault _` computation
whose handler is the corresponding Lean `match`.  Python `None` is
`Option.none`, falsy-`or` is made explicit, and the attempt loop of the
gateway is instrumented with the number of transport invocations.
-/

namespace Stargent

/-- JSON values, used for tool-call argument payloads (`json.loads` of the
argument text) and as the target of `to_json`/`from_json` serialization.
Numbers are modelled as integers: every numeric field of the serialized
contexts is a Python `int`. -/
inductive JsonValue where
  | null : JsonValue
  | bool (b : Bool) : JsonValue
  | num (n : Int) : JsonValue
  | str (s : String) : JsonValue
  | arr (elems : List JsonValue) : JsonValue
  | obj (fields : List (String × JsonValue)) : JsonValue

/-- One chat turn of `UserContexts.chat_history`.  The source stores plain
dicts; every entry is created by `add_user_message` / `add_assistant_message`,
which always populate exactly these four keys, so the turns are modelled
structurally.  The profile map is string-to-string, matching every write
site in the app layer. -/
structure ChatMessage where
  role : String
  content : String
  timestamp : String
  progress : Option String
  deriving Repr, DecidableEq

/-- `model_class.UserContexts`. -/
structure UserContexts where
  user_info : List (String × String) := []
  chat_history : List ChatMessage := []
  deriving Repr, DecidableEq

/-- `model_class.UserContexts.add_user_message`; the `datetime.now()`
clock read is an explicit argument. -/
def UserContexts.add_user_message (ctx : UserContexts) (content : String)
    (timestamp : String) : UserContexts :=
  { ctx with chat_history :=
      ctx.chat_history ++ [⟨"user", content, timestamp, none⟩] }

/-- `model_class.UserContexts.add_assistant_message`. -/
def UserContexts.add_assistant_message (ctx : UserContexts) (content : String)
    (progress : Option String) (timestamp : String) : UserContexts :=
  { ctx with chat_history :=
      ctx.chat_history ++ [⟨"assistant", content, timestamp, progress⟩] }

/-- `model_class.AgentOutput`. -/
structure AgentOutput where
  final_output : Bool := false
  progress_description : String := ""
  output : String := ""
  deriving Repr, DecidableEq

/-- One entry of `AgentPlan.plans`.  The source stores dicts; every entry
constructed by the repository (in `add_plan_step`, the planner fallbacks and
the decoded plan payload) carries exactly these three keys. -/
structure PlanStep where
  agent_name : String
  description : String
  tool_recommendation : List String
  deriving Repr, DecidableEq

/-- `model_class.AgentPlan`.  `total_steps` is an unbounded Python int. -/
structure AgentPlan where
  total_steps : Int := 1
  plans : List PlanStep := []
  mode : String := "chat"
  deriving Repr, DecidableEq

/-- `model_class.AgentPlan.add_plan_step`. -/
def AgentPlan.add_plan_step (plan : AgentPlan) (agent_name : String)
    (description : String) (tool_recommendation : List String) : AgentPlan :=
  let plans := plan.plans ++ [⟨agent_name, description, tool_recommendation⟩]
  { plan with plans := plans, total_steps := (plans.length : Int) }

/-- `model_class.AgentContexts`. -/
structure AgentContexts where
  agent_id_history : List String := []
  total_step : Int := 1
  current_step : Int := 0
  agent_output : List AgentOutput := []
  deriving Repr, DecidableEq

/-- `model_class.AgentContexts.add_agent_result`: append the identity,
append the output, and set `current_step` to the new identity-history
length. -/
def AgentContexts.add_agent_result (ctx : AgentContexts) (agent_name : String)
    (output : AgentOutput) : AgentContexts :=
  let history := ctx.agent_id_history ++ [agent_name]
  { ctx with
      agent_id_history := history,
      agent_output := ctx.agent_output ++ [output],
      current_step := (history.length : Int) }

/-- `model_class.AgentContexts.is_final_step`. -/
def AgentContexts.is_final_step (ctx : AgentContexts) : Bool :=
  ctx.current_step ≥ ctx.total_step

/-!  The OpenAI transport and its response objects. -/

/-- The failure categories of a transport attempt, one per `except` arm of
`safe_llm_call_with_retry`: `openai.APIError`, `openai.RateLimitError`,
`openai.APIConnectionError`, and the catch-all `Exception`. -/
inductive ApiError where
  | apiError (msg : String)
  | rateLimitError
  | apiConnectionError
  | otherError (msg : String)
  deriving Repr, DecidableEq

/-- The `function` part of a model-requested tool call: a name and the raw
(undecoded) argument text. -/
structure ToolCallFunction where
  name : String
  arguments : String
  deriving Repr, DecidableEq

/-- One model-requested tool call `(id, type, function)`. -/
structure ToolCall where
  id : String
  type : String
  function : ToolCallFunction
  deriving Repr, DecidableEq

/-- A response message: `content` is `Optional[str]`; an absent or `None`
`tool_calls` attribute and an empty list are indistinguishable through the
source's `hasattr(message, 'tool_calls') and message.tool_calls` truthiness
test, so both are the empty list. -/
structure LLMMessage where
  content : Option String
  tool_calls : List ToolCall
  deriving Repr, DecidableEq

/-- One entry of `response.choices`. -/
structure Choice where
  message : LLMMessage
  deriving Repr, DecidableEq

/-- A chat-completion response.  The source indexes `choices[0]` without a
length check, so `choices` is kept as a list. -/
structure LLMResponse where
  choices : List Choice
  deriving Repr, DecidableEq

/-- A message dict built by the orchestration code and sent to the
transport, one constructor per dict shape appearing in the source. -/
inductive OutMessage where
  | system (content : String)
  | user (content : String)
  | assistant (content : Option String) (tool_calls : List ToolCall)
  | tool (tool_call_id : String) (content : String)
  deriving Repr, DecidableEq

/-- Python runtime faults that the embedded code can actually raise:
`IndexError` from `choices[0]` on an empty list, `TypeError` from
`"..." in content` when `content` is `None`, and `AttributeError` from
`plan_data.get(...)` when the decoded plan payload is not an object. -/
inductive PyFault where
  | indexError
  | typeError
  | attributeError
  deriving Repr, DecidableEq

/-- `xs[i]` on a Python list: the element, or an `IndexError`. -/
def pyIndex (xs : List α) (i : Nat) : Except PyFault α :=
  match xs.get? i with
  | some x => Except.ok x
  | none => Except.error PyFault.indexError

/-- Python `s or default` on `str | None` values (`None` and `""` are
falsy). -/
def pyOrOpt (v : Option String) (d : String) : String :=
  match v with
  | none => d
  | some s => if s = "" then d else s

/-- Python `s or default` on `str` values. -/
def pyOrStr (s : String) (d : String) : String :=
  if s = "" then d else s

/-- A registered tool implementation, as invoked by
`available_tools[function_name](**function_args)`: it receives the decoded
argument payload and either returns a string or raises (`Except.error`
carries `str(e)`).  Binding `**kwargs` against the Python signature —
including the `TypeError` raised when the payload is not an object — is
part of the modelled callable's error behaviour. -/
def ToolFn : Type := JsonValue → Except String String

/-- The planner's decoded plan payload: the result of `json.loads` on the
fence-stripped response text, accessed only through
`plan_data.get("total_steps", 1)`, `plan_data.get("plans", [])` and
`plan_data.get("mode", "chat")`.  The decode and those dynamically typed
accesses are modelled together as an oracle producing a well-typed payload
with one optional field per accessed key. -/
structure PlanData where
  total_steps : Option Int
  plans : Option (List PlanStep)
  mode : Option String
  deriving Repr, DecidableEq

/-- Outcome of `json.loads` on the fence-stripped plan text: a well-typed
object payload, a `json.JSONDecodeError`, or a successfully decoded
non-object value (on which the subsequent `plan_data.get` raises
`AttributeError`). -/
inductive PlanDecode where
  | ok (d : PlanData)
  | jsonError
  | notAnObject
  deriving Repr, DecidableEq

/-- The external collaborators of the orchestration engine.
`transport` is one `client.chat.completions.create` attempt: it receives
the messages, the optional tool-schema list and the attempt index (the
model id, temperature and token limit are fixed constants) and either
returns a response or raises one of the four failure categories.
`promptStore` is the `prompts/<name>.md` file store; `none` covers both a
missing file and a read failure, which the source maps to the same default
prompt.  `toolImpl` gives the behaviour of the eight registered tool
functions.  `jsonLoads` is `json.loads` on tool-call argument text
(`none` = `JSONDecodeError`), and `decodePlan` the planner's decode of the
fence-stripped plan text into a well-typed payload. -/
structure Env where
  transport : List OutMessage → Option (List String) → Nat → Except ApiError LLMResponse
  promptStore : String → Option String
  toolImpl : String → ToolFn
  jsonLoads : String → Option JsonValue
  decodePlan : String → PlanDecode

/-!  `agent.safe_llm_call_with_retry`. -/

/-- The attempt loop of `safe_llm_call_with_retry`, instrumented with the
number of transport invocations performed: `for attempt in
range(max_retries + 1)`, returning the response on success and `None`
when the final attempt (`attempt == max_retries`) fails.  The last
argument counts the iterations the `range` still holds, making the
recursion structural; the loop is entered with `max_retries + 1`. -/
def safe_llm_call_go (call : Nat → Except ApiError LLMResponse)
    (max_retries : Nat) : Nat → Nat → Option LLMResponse × Nat
  | _, 0 => (none, 0)
  | attempt, remaining + 1 =>
    match call attempt with
    | Except.ok response => (some response, 1)
    | Except.error _ =>
      if attempt = max_retries then (none, 1)
      else
        let rest := safe_llm_call_go call max_retries (attempt + 1) remaining
        (rest.1, rest.2 + 1)

/-- `agent.safe_llm_call_with_retry` with its attempt count. -/
def safe_llm_call_instr (env : Env) (messages : List OutMessage)
    (tools : Option (List String)) (max_retries : Nat) :
    Option LLMResponse × Nat :=
  safe_llm_call_go (env.transport messages tools) max_retries 0 (max_retries + 1)

/-- `agent.safe_llm_call_with_retry`: `Some response` or the `None`
unavailability signal. -/
def safe_llm_call_with_retry (env : Env) (messages : List OutMessage)
    (tools : Option (List String)) (max_retries : Nat) : Option LLMResponse :=
  (safe_llm_call_instr env messages tools max_retries).1

/-!  `agent.execute_tools_if_needed` and the tool registry. -/

/-- The key set of `tools.TOOL_FUNCTIONS`; the callables behind the keys
are external collaborators supplied by `Env.toolImpl`. -/
def TOOL_FUNCTION_NAMES : List String :=
  ["get_latest_news", "get_major_movers", "get_market_indicators",
   "search_stock_code", "get_stock_price", "analyze_stock_pattern",
   "get_company_info", "generate_scenarios"]

/-- `tools.TOOL_FUNCTIONS` as a lookup: a concrete key set with
environment-supplied behaviour. -/
def TOOL_FUNCTIONS (env : Env) (name : String) : Option ToolFn :=
  if name ∈ TOOL_FUNCTION_NAMES then some (env.toolImpl name) else none

/-- `tools.AGENT_TOOLS.get(agent_name, [])`.  A schema entry is an opaque
payload forwarded to the transport; it is modelled by its function name. -/
def AGENT_TOOLS (agent_name : String) : List String :=
  if agent_name = "키키" then
    ["get_latest_news", "get_major_movers", "get_market_indicators"]
  else if agent_name = "아거" then
    ["search_stock_code", "get_stock_price", "analyze_stock_pattern",
     "get_company_info"]
  else if agent_name = "라무" then
    ["generate_scenarios"]
  else []

/-- The body of the per-call loop of `execute_tools_if_needed`: decode the
argument text first (`json.JSONDecodeError` → parse-failure string), then
look the name up in the registry (absent → unknown-tool string), then
invoke the callable (anything it raises → execution-error string). -/
def run_tool_call (env : Env) (available_tools : String → Option ToolFn)
    (tool_call : ToolCall) : String :=
  let function_name := tool_call.function.name
  match env.jsonLoads tool_call.function.arguments with
  | none => "오류: " ++ function_name ++ "의 인자 파싱 실패"
  | some function_args =>
    match available_tools function_name with
    | some f =>
      match f function_args with
      | Except.ok function_response => function_response
      | Except.error e =>
        "오류: " ++ function_name ++ " 실행 중 오류 발생 - " ++ e
    | none => "오류: 알 수 없는 도구 \x27" ++ function_name ++ "\x27"

/-- `agent.execute_tools_if_needed`.  Indexing `response.choices[0]` can
raise; with tool calls present the follow-up list is the echoed assistant
message followed by one tool message per requested call, tagged with that
call's id. -/
def execute_tools_if_needed (env : Env) (response : LLMResponse)
    (available_tools : String → Option ToolFn) :
    Except PyFault (String × List OutMessage) :=
  match pyIndex response.choices 0 with
  | Except.error f => Except.error f
  | Except.ok choice =>
    let message := choice.message
    if message.tool_calls.isEmpty then
      Except.ok (pyOrOpt message.content "", [])
    else
      let assistant_msg := OutMessage.assistant message.content message.tool_calls
      let tool_msgs := message.tool_calls.map fun tool_call =>
        OutMessage.tool tool_call.id (run_tool_call env available_tools tool_call)
      Except.ok (pyOrOpt message.content "", assistant_msg :: tool_msgs)

/-!  `agent.load_prompt` and `agent.create_context_prompt`. -/

/-- The fallback prompt used when the prompt file is missing or unreadable. -/
def default_prompt (agent_name : String) : String :=
  "당신은 " ++ agent_name ++
    " 에이전트입니다. 사용자의 요청에 도움이 되는 응답을 제공해주세요."

/-- `agent.load_prompt`: the stored prompt, or the default on a missing
file or a read failure (both `Env.promptStore` misses). -/
def load_prompt (env : Env) (agent_name : String) : String :=
  match env.promptStore agent_name with
  | some prompt_content => prompt_content
  | none => default_prompt agent_name

/-- Python `s[:limit]` followed by an ellipsis marker when `len(s) > limit`. -/
def pyTruncate (s : String) (limit : Nat) : String :=
  s.take limit ++ (if s.length > limit then "..." else "")

/-- Python `str.lower()`; the identities fed to it are Korean names and
`"manager"`, on which ASCII lowercasing agrees with Python. -/
def pyLower (s : String) : String := String.mk (s.data.map Char.toLower)

/-- `agent.create_context_prompt`: the pure prompt assembler.  Profile
entries, the last five chat turns truncated at 100 characters, every prior
agent output truncated at 200 characters, the progress line, and the list
of invoked identities, concatenated onto the base prompt. -/
def create_context_prompt (user_ctx : UserContexts) (agent_ctx : AgentContexts)
    (base_prompt : String) : String :=
  let context_info := "\n\n=== 컨텍스트 정보 ===\n"
  let context_info := context_info ++
    (if user_ctx.user_info.isEmpty then "" else
      "\n【사용자 정보】\n" ++
      String.join (user_ctx.user_info.map fun kv =>
        "- " ++ kv.1 ++ ": " ++ kv.2 ++ "\n"))
  let context_info := context_info ++
    (if user_ctx.chat_history.isEmpty then "" else
      "\n【최근 대화 기록】\n" ++
      String.join
        ((user_ctx.chat_history.drop (user_ctx.chat_history.length - 5)).map
          fun chat =>
            "- " ++ (if chat.role = "user" then "사용자" else "AI") ++ ": " ++
              pyTruncate chat.content 100 ++ "\n"))
  let context_info := context_info ++
    (if agent_ctx.agent_output.isEmpty then "" else
      "\n【이전 에이전트 작업 결과】\n" ++
      String.join (agent_ctx.agent_output.enum.map fun io =>
        let agent_name :=
          match agent_ctx.agent_id_history.get? io.1 with
          | some n => n
          | none => "Agent" ++ toString io.1
        "- " ++ agent_name ++ ": " ++ io.2.progress_description ++ "\n" ++
          "  결과: " ++ pyTruncate io.2.output 200 ++ "\n"))
  let context_info := context_info ++ "\n【작업 진행 상황】\n" ++
    "- 현재 단계: " ++ toString (agent_ctx.current_step + 1) ++ "/" ++
      toString agent_ctx.total_step ++ "\n" ++
    "- 완료된 에이전트: " ++
      (if agent_ctx.agent_id_history.isEmpty then "없음"
       else String.intercalate ", " agent_ctx.agent_id_history) ++ "\n"
  base_prompt ++ context_info ++
    "\n\n위 정보를 참고하여 사용자의 요청에 적절히 응답해주세요."

/-- The backward scan of `chat_history` for the most recent user turn,
shared by `execute_manager` and `execute_agent`; `""` when none exists. -/
def last_user_message (user_ctx : UserContexts) : String :=
  match user_ctx.chat_history.reverse.find? (fun chat => chat.role == "user") with
  | some chat => chat.content
  | none => ""

/-!  Python string primitives used by the planner's fence stripping. -/

/-- Python `sub in s` on character lists. -/
def listContainsSub (s sub : List Char) : Bool :=
  (List.range (s.length + 1)).any fun i => sub.isPrefixOf (s.drop i)

/-- Python `s.find(sub, start)`: the least index at or after `start` where
`sub` occurs, `-1` when it does not. -/
def pyFind (s sub : List Char) (start : Nat) : Int :=
  match (List.range (s.length + 1)).find?
      (fun i => decide (start ≤ i) && sub.isPrefixOf (s.drop i)) with
  | some i => (i : Int)
  | none => -1

/-- Python `s[a:b]` for a non-negative start and a possibly negative end. -/
def pySlice (s : List Char) (a : Nat) (b : Int) : List Char :=
  let n := s.length
  let e : Nat := if b < 0 then ((n : Int) + b).toNat else min b.toNat n
  (s.take e).drop a

/-- Python `s.strip()`. -/
def pyStrip (s : List Char) : List Char :=
  ((s.dropWhile Char.isWhitespace).reverse.dropWhile Char.isWhitespace).reverse

/-!  `agent.execute_agent`. -/

/-- The terminal apology returned when the first gateway call is
unavailable. -/
def unavailable_output (agent_name : String) : AgentOutput :=
  { final_output := true,
    progress_description := agent_name ++ " 실행 실패",
    output :=
      "죄송합니다. 현재 서비스에 일시적인 문제가 발생했습니다. 잠시 후 다시 시도해주세요." }

/-- The identity-scoped apology produced by the catch-all handler of
`execute_agent`. -/
def error_output (agent_name : String) : AgentOutput :=
  { final_output := true,
    progress_description := agent_name ++ " 실행 중 오류 발생",
    output :=
      "죄송합니다. " ++ agent_name ++ " 실행 중 오류가 발생했습니다. 다시 시도해주세요." }

/-- The two-message conversation `execute_agent` sends on its first
gateway call: the context-grounded system prompt and the latest user
request. -/
def agent_messages (env : Env) (agent_name : String) (user_ctx : UserContexts)
    (agent_ctx : AgentContexts) : List OutMessage :=
  let base_prompt := load_prompt env (pyLower agent_name)
  let complete_prompt := create_context_prompt user_ctx agent_ctx base_prompt
  [OutMessage.system complete_prompt, OutMessage.user (last_user_message user_ctx)]

/-- `available_tools if available_tools else None`. -/
def agent_tools_param (agent_name : String) : Option (List String) :=
  let available_tools := AGENT_TOOLS agent_name
  if available_tools.isEmpty then none else some available_tools

/-- The result of the first gateway call of `execute_agent`. -/
def first_gateway_response (env : Env) (agent_name : String)
    (user_ctx : UserContexts) (agent_ctx : AgentContexts) : Option LLMResponse :=
  safe_llm_call_with_retry env (agent_messages env agent_name user_ctx agent_ctx)
    (agent_tools_param agent_name) 2

/-- The `try` block of `execute_agent`: first gateway call, unavailability
short-circuit, tool resolution, optional second call with its fallback, and
packaging with `is_final = current_step + 1 >= total_step` on the
pre-append context. -/
def execute_agent_body (env : Env) (agent_name : String) (user_ctx : UserContexts)
    (agent_ctx : AgentContexts) : Except PyFault AgentOutput :=
  let messages := agent_messages env agent_name user_ctx agent_ctx
  match first_gateway_response env agent_name user_ctx agent_ctx with
  | none => Except.ok (unavailable_output agent_name)
  | some response =>
    match execute_tools_if_needed env response (TOOL_FUNCTIONS env) with
    | Except.error f => Except.error f
    | Except.ok (content, additional_messages) =>
      let final_content_step : Except PyFault (Option String) :=
        if additional_messages.isEmpty then Except.ok (some content)
        else
          let final_messages := messages ++ additional_messages
          match safe_llm_call_with_retry env final_messages none 2 with
          | some final_response =>
            (match pyIndex final_response.choices 0 with
             | Except.ok choice => Except.ok choice.message.content
             | Except.error f => Except.error f)
          | none =>
            Except.ok (some (pyOrStr content
              "도구 실행은 완료되었지만 최종 응답 생성에 실패했습니다."))
      match final_content_step with
      | Except.error f => Except.error f
      | Except.ok final_content =>
        let is_final := decide (agent_ctx.current_step + 1 ≥ agent_ctx.total_step)
        Except.ok
          { final_output := is_final,
            progress_description := agent_name ++ "의 작업 완료",
            output := pyOrOpt final_content "응답을 생성할 수 없습니다." }

/-- `agent.execute_agent`: the `try` body with its catch-all handler. -/
def execute_agent (env : Env) (agent_name : String) (user_ctx : UserContexts)
    (agent_ctx : AgentContexts) : AgentOutput :=
  match execute_agent_body env agent_name user_ctx agent_ctx with
  | Except.ok result => result
  | Except.error _ => error_output agent_name

/-!  `agent.execute_manager`. -/

/-- The fixed plan synthesized when the gateway is unavailable. -/
def manager_fallback_unavailable : AgentPlan :=
  { total_steps := 1,
    plans := [⟨"비비", "사용자 요청에 대한 기본적인 응답 제공", []⟩],
    mode := "chat" }

/-- The fixed plan returned by the catch-all handler of `execute_manager`. -/
def manager_fallback_error : AgentPlan :=
  { total_steps := 1,
    plans := [⟨"비비", "오류 상황에서의 기본 응답", []⟩],
    mode := "chat" }

/-- The keyword scan of the raw response text used on plan-decode failure:
the first known identity found, defaulting to 비비. -/
def keyword_agent (content : String) : String :=
  if listContainsSub content.data "키키".data then "키키"
  else if listContainsSub content.data "아거".data then "아거"
  else if listContainsSub content.data "라무".data then "라무"
  else if listContainsSub content.data "콜리".data then "콜리"
  else "비비"

/-- The single-step plan synthesized from the keyword scan. -/
def manager_fallback_keyword (content : String) : AgentPlan :=
  { total_steps := 1,
    plans := [⟨keyword_agent content, "사용자 요청 처리", []⟩],
    mode := "chat" }

/-- The PLAN request text appended under the user role (the `f\"\"\"...\"\"\"`
literal of `execute_manager`). -/
def plan_request_text (lum : String) : String :=
  "\n사용자 요청: \"" ++ lum ++
    "\"\n\n위 요청을 분석하여 적절한 작업 계획(PLAN)을 수립해주세요.\n데모 환경이므로 최대 3단계까지만 계획하고, 주로 Chat 모드를 사용해주세요.\n\nJSON 형식으로 응답해주세요:\n\x7b\n    \"total_steps\": 숫자,\n    \"plans\": [\n        \x7b\n            \"agent_name\": \"에이전트명\",\n            \"description\": \"구체적인 작업 설명\", \n            \"tool_recommendation\": [\"도구1\", \"도구2\"]\n        \x7d\n    ],\n    \"mode\": \"chat\"\n\x7d\n"

/-- The two-message conversation `execute_manager` sends to the gateway. -/
def manager_messages (env : Env) (user_ctx : UserContexts)
    (agent_ctx : AgentContexts) : List OutMessage :=
  let base_prompt := load_prompt env "manager"
  let complete_prompt := create_context_prompt user_ctx agent_ctx base_prompt
  [OutMessage.system complete_prompt,
   OutMessage.user (plan_request_text (last_user_message user_ctx))]

/-- The result of the gateway call of `execute_manager`. -/
def manager_first_response (env : Env) (user_ctx : UserContexts)
    (agent_ctx : AgentContexts) : Option LLMResponse :=
  safe_llm_call_with_retry env (manager_messages env user_ctx agent_ctx) none 2

/-- The code-fence stripping of `execute_manager`: cut between a leading
```` ```json ```` (or bare ```` ``` ````) marker and the next ```` ``` ````
(Python `find` returning `-1` when absent makes the slice drop the final
character), then `strip()`; text with no fence passes through unchanged. -/
def extract_json_content (response_content : String) : String :=
  let cs := response_content.data
  if listContainsSub cs "```json".data then
    let json_start := pyFind cs "```json".data 0 + 7
    let json_end := pyFind cs "```".data json_start.toNat
    String.mk (pyStrip (pySlice cs json_start.toNat json_end))
  else if listContainsSub cs "```".data then
    let json_start := pyFind cs "```".data 0 + 3
    let json_end := pyFind cs "```".data json_start.toNat
    String.mk (pyStrip (pySlice cs json_start.toNat json_end))
  else response_content

/-- The `try` block of `execute_manager`.  A `None` response content makes
the fence test `\"...\" in None` raise `TypeError`; a decoded non-object
payload makes `plan_data.get` raise `AttributeError`; both land at the
catch-all handler.  A `json.JSONDecodeError` is caught by the inner
handler, which scans the raw (unstripped) response text for identity
keywords.  A decoded object payload is turned into a plan via
`plan_data.get` with defaults `1`, `[]`, `\"chat\"` — without any check
that `total_steps` matches `len(plans)`. -/
def execute_manager_body (env : Env) (user_ctx : UserContexts)
    (agent_ctx : AgentContexts) : Except PyFault AgentPlan :=
  match manager_first_response env user_ctx agent_ctx with
  | none => Except.ok manager_fallback_unavailable
  | some response =>
    match pyIndex response.choices 0 with
    | Except.error f => Except.error f
    | Except.ok choice =>
      match choice.message.content with
      | none => Except.error PyFault.typeError
      | some response_content =>
        match env.decodePlan (extract_json_content response_content) with
        | PlanDecode.ok plan_data =>
          Except.ok
            { total_steps := plan_data.total_steps.getD 1,
              plans := plan_data.plans.getD [],
              mode := plan_data.mode.getD "chat" }
        | PlanDecode.jsonError => Except.ok (manager_fallback_keyword response_content)
        | PlanDecode.notAnObject => Except.error PyFault.attributeError

/-- `agent.execute_manager`: the `try` body with its catch-all handler. -/
def execute_manager (env : Env) (user_ctx : UserContexts)
    (agent_ctx : AgentContexts) : AgentPlan :=
  match execute_manager_body env user_ctx agent_ctx with
  | Except.ok plan => plan
  | Except.error _ => manager_fallback_error

/-!  `agent.execute_plan` and the executor registry. -/

/-- The key set of `agent.AGENT_EXECUTORS`. -/
def AGENT_EXECUTOR_NAMES : List String := ["비비", "키키", "아거", "라무", "콜리"]

/-- Executor dispatch: each registered key maps to `execute_agent` applied
to that same fixed identity (`execute_bibi` = `execute_agent(\"비비\", ...)`
and so on), and an unregistered identity falls back to `execute_bibi`. -/
def resolve_executor (agent_name : String) : String :=
  if agent_name ∈ AGENT_EXECUTOR_NAMES then agent_name else "비비"

/-- One iteration of the step loop of `execute_plan`: run the resolved
executor on the current context, then append the step's identity and the
result as one `add_agent_result` call. -/
def plan_step_run (env : Env) (user_ctx : UserContexts) (agent_ctx : AgentContexts)
    (step_plan : PlanStep) : AgentContexts :=
  let result := execute_agent env (resolve_executor step_plan.agent_name) user_ctx agent_ctx
  agent_ctx.add_agent_result step_plan.agent_name result

/-- The step loop of `execute_plan` over the remaining plan entries. -/
def run_steps (env : Env) (user_ctx : UserContexts) :
    List PlanStep → AgentContexts → AgentContexts
  | [], agent_ctx => agent_ctx
  | step_plan :: rest, agent_ctx =>
    run_steps env user_ctx rest (plan_step_run env user_ctx agent_ctx step_plan)

/-- `agent.execute_plan`: a fresh context with `total_step =
plan.total_steps` and `current_step = 0`, then the step loop over
`plan.plans`. -/
def execute_plan (env : Env) (plan : AgentPlan) (user_ctx : UserContexts) :
    AgentContexts :=
  let agent_ctx : AgentContexts :=
    { agent_id_history := [], total_step := plan.total_steps,
      current_step := 0, agent_output := [] }
  run_steps env user_ctx plan.plans agent_ctx

/-!  Serialization (`to_json` / `from_json`).

`to_json` is `json.dumps(asdict(self))` and `from_json` is
`cls(**json.loads(json_str))`; the stdlib `dumps`/`loads` pair is an
external collaborator whose round trip is the identity on JSON values, so
both sides are modelled at the `JsonValue` level.  `cls(**data)` accepts
an object whose keys form a subset of the dataclass fields (anything else
is a `TypeError`), filling absent fields with their defaults; Python
performs no per-field type validation, so the parsers here are the
restriction of `cls(**data)` to payloads that fit the declared field
types — which includes every serialization image. -/

/-- Option-valued traversal of a list, `none` as soon as `f` fails. -/
def optionMapM (f : α → Option β) : List α → Option (List β)
  | [] => some []
  | a :: rest =>
    match f a with
    | some b =>
      match optionMapM f rest with
      | some bs => some (b :: bs)
      | none => none
    | none => none

/-- First value stored under `key` in a JSON object's field list. -/
def lookupField (fields : List (String × JsonValue)) (key : String) :
    Option JsonValue :=
  (fields.find? fun kv => kv.1 == key).map fun kv => kv.2

/-- `cls(**data)` key discipline: every present key names a dataclass
field. -/
def fieldKeysSubset (fields : List (String × JsonValue))
    (allowed : List String) : Bool :=
  fields.all fun kv => allowed.contains kv.1

/-- `asdict` image of one chat turn. -/
def ChatMessage.toJson (m : ChatMessage) : JsonValue :=
  JsonValue.obj
    [("role", JsonValue.str m.role),
     ("content", JsonValue.str m.content),
     ("timestamp", JsonValue.str m.timestamp),
     ("progress",
      match m.progress with
      | some p => JsonValue.str p
      | none => JsonValue.null)]

/-- Parse one chat turn back from its serialized object form. -/
def ChatMessage.fromJson (v : JsonValue) : Option ChatMessage :=
  match v with
  | JsonValue.obj fields =>
    match lookupField fields "role", lookupField fields "content",
        lookupField fields "timestamp", lookupField fields "progress" with
    | some (JsonValue.str role), some (JsonValue.str content),
        some (JsonValue.str timestamp), some progress_v =>
      match progress_v with
      | JsonValue.null => some ⟨role, content, timestamp, none⟩
      | JsonValue.str p => some ⟨role, content, timestamp, some p⟩
      | _ => none
    | _, _, _, _ => none
  | _ => none

/-- `model_class.UserContexts.to_json` at the JSON-value level. -/
def UserContexts.to_json (ctx : UserContexts) : JsonValue :=
  JsonValue.obj
    [("user_info",
      JsonValue.obj (ctx.user_info.map fun kv => (kv.1, JsonValue.str kv.2))),
     ("chat_history", JsonValue.arr (ctx.chat_history.map ChatMessage.toJson))]

/-- `model_class.UserContexts.from_json` (`cls(**json.loads(...))`). -/
def UserContexts.from_json (v : JsonValue) : Option UserContexts :=
  match v with
  | JsonValue.obj fields =>
    if fieldKeysSubset fields ["user_info", "chat_history"] then
      match
        (match lookupField fields "user_info" with
         | some (JsonValue.obj info_fields) =>
           optionMapM
             (fun kv =>
               match kv.2 with
               | JsonValue.str s => some (kv.1, s)
               | _ => none)
             info_fields
         | some _ => none
         | none => some []),
        (match lookupField fields "chat_history" with
         | some (JsonValue.arr elems) => optionMapM ChatMessage.fromJson elems
         | some _ => none
         | none => some []) with
      | some user_info, some chat_history => some ⟨user_info, chat_history⟩
      | _, _ => none
    else none
  | _ => none

/-- `asdict` image of one `AgentOutput`. -/
def AgentOutput.toJson (o : AgentOutput) : JsonValue :=
  JsonValue.obj
    [("final_output", JsonValue.bool o.final_output),
     ("progress_description", JsonValue.str o.progress_description),
     ("output", JsonValue.str o.output)]

/-- `AgentOutput(**output_dict)`: subset keys, defaults `False`, `""`,
`""`. -/
def AgentOutput.fromJson (v : JsonValue) : Option AgentOutput :=
  match v with
  | JsonValue.obj fields =>
    if fieldKeysSubset fields ["final_output", "progress_description", "output"] then
      match
        (match lookupField fields "final_output" with
         | some (JsonValue.bool b) => some b
         | none => some false
         | some _ => none),
        (match lookupField fields "progress_description" with
         | some (JsonValue.str s) => some s
         | none => some ""
         | some _ => none),
        (match lookupField fields "output" with
         | some (JsonValue.str s) => some s
         | none => some ""
         | some _ => none) with
      | some final_output, some progress_description, some output =>
        some ⟨final_output, progress_description, output⟩
      | _, _, _ => none
    else none
  | _ => none

/-- `model_class.AgentContexts.to_json` at the JSON-value level (`asdict`
already serializes the nested outputs; the explicit re-conversion in the
source is idempotent). -/
def AgentContexts.to_json (ctx : AgentContexts) : JsonValue :=
  JsonValue.obj
    [("agent_id_history",
      JsonValue.arr (ctx.agent_id_history.map JsonValue.str)),
     ("total_step", JsonValue.num ctx.total_step),
     ("current_step", JsonValue.num ctx.current_step),
     ("agent_output", JsonValue.arr (ctx.agent_output.map AgentOutput.toJson))]

/-- `model_class.AgentContexts.from_json`: rebuild the outputs with
`AgentOutput(**output_dict)`, then `cls(**data)`. -/
def AgentContexts.from_json (v : JsonValue) : Option AgentContexts :=
  match v with
  | JsonValue.obj fields =>
    if fieldKeysSubset fields
        ["agent_id_history", "total_step", "current_step", "agent_output"] then
      match
        (match lookupField fields "agent_id_history" with
         | some (JsonValue.arr elems) =>
           optionMapM
             (fun e =>
               match e with
               | JsonValue.str s => some s
               | _ => none)
             elems
         | some _ => none
         | none => some []),
        (match lookupField fields "total_step" with
         | some (JsonValue.num n) => some n
         | none => some 1
         | some _ => none),
        (match lookupField fields "current_step" with
         | some (JsonValue.num n) => some n
         | none => some 0
         | some _ => none),
        (match lookupField fields "agent_output" with
         | some (JsonValue.arr elems) => optionMapM AgentOutput.fromJson elems
         | some _ => none
         | none => some []) with
      | some agent_id_history, some total_step, some current_step,
          some agent_output =>
        some ⟨agent_id_history, total_step, current_step, agent_output⟩
      | _, _, _, _ => none
    else none
  | _ => none

/-!  Auxiliary notions for the theorems, and concrete fixtures. -/

/-- A gateway whose every attempt succeeds with at least one choice: the
setting in which every agent turn completes normally. -/
def Env.alwaysAvailable (env : Env) : Prop :=
  ∀ messages tools attempt,
    ∃ r, env.transport messages tools attempt = Except.ok r ∧ r.choices ≠ []

/-- The outputs appended by the step loop, in execution order, each
produced by running the resolved executor on the context as it stood
before that step. -/
def outputs_trace (env : Env) (user_ctx : UserContexts) :
    List PlanStep → AgentContexts → List AgentOutput
  | [], _ => []
  | step_plan :: rest, agent_ctx =>
    execute_agent env (resolve_executor step_plan.agent_name) user_ctx agent_ctx ::
      outputs_trace env user_ctx rest (plan_step_run env user_ctx agent_ctx step_plan)

/-- A transport that fails every attempt with a connection error. -/
def env_fail : Env :=
  { transport := fun _ _ _ => Except.error ApiError.apiConnectionError,
    promptStore := fun _ => none,
    toolImpl := fun _ _ => Except.ok "",
    jsonLoads := fun _ => none,
    decodePlan := fun _ => PlanDecode.jsonError }

/-- A transport that answers every call with a response carrying no
choices. -/
def env_empty_choices : Env :=
  { env_fail with transport := fun _ _ _ => Except.ok ⟨[]⟩ }

/-- A transport that answers with a plain one-choice text response, and a
plan decoder that yields a payload declaring two steps but listing one. -/
def env_mismatched_plan : Env :=
  { env_fail with
    transport := fun _ _ _ => Except.ok ⟨[⟨⟨some "plan text", []⟩⟩]⟩,
    decodePlan := fun _ =>
      PlanDecode.ok ⟨some 2, some [⟨"비비", "응답 제공", []⟩], some "chat"⟩ }

/-- An empty user context. -/
def user_empty : UserContexts := {}

/-- A fresh agent context. -/
def agent_ctx0 : AgentContexts := {}

/-- A plan declaring two total steps but carrying a single entry — the
shape the planner's decoded path can produce. -/
def plan_mismatched : AgentPlan :=
  { total_steps := 2, plans := [⟨"비비", "응답 제공", []⟩], mode := "chat" }

/-- A well-formed two-step plan. -/
def plan_two_steps : AgentPlan :=
  { total_steps := 2,
    plans := [⟨"키키", "뉴스 수집", []⟩, ⟨"비비", "응답 제공", []⟩],
    mode := "chat" }

/-- A response whose single choice requests one tool call. -/
def response_one_call : LLMResponse :=
  ⟨[⟨⟨some "조회 중", [⟨"call_1", "function", ⟨"get_stock_price", "bad json"⟩⟩]⟩⟩]⟩

/-!  Helper lemmas. -/

/-- When every attempt up to the bound fails, the attempt loop exhausts the
remaining iteration budget and reports the unavailability signal. -/
theorem safe_llm_call_go_all_fail
    (call : Nat → Except ApiError LLMResponse) (max_retries : Nat) :
    ∀ remaining attempt, attempt + remaining = max_retries + 1 →
      (∀ i, i ≤ max_retries → ∃ e, call i = Except.error e) →
      safe_llm_call_go call max_retries attempt remaining = (none, remaining) := by
  intro remaining
  induction remaining with
  | zero => intro attempt _ _; rfl
  | succ n ih =>
    intro attempt hsum hfail
    obtain ⟨e, he⟩ := hfail attempt (by omega)
    simp only [safe_llm_call_go, he]
    by_cases hcase : attempt = max_retries
    · rw [if_pos hcase]
      have : n = 0 := by omega
      rw [this]
    · rw [if_neg hcase]
      rw [ih (attempt + 1) (by omega) hfail]

/-- Traversing the image of a section recovers the original list. -/
theorem optionMapM_roundtrip (g : α → β) (f : β → Option α)
    (h : ∀ a, f (g a) = some a) : ∀ l : List α, optionMapM f (l.map g) = some l := by
  intro l
  induction l with
  | nil => rfl
  | cons a rest ih => simp [optionMapM, h, ih]

/-- One chat turn survives the serialization round trip. -/
theorem chatMessage_roundtrip (m : ChatMessage) :
    ChatMessage.fromJson (ChatMessage.toJson m) = some m := by
  cases m with
  | mk role content timestamp progress => cases progress <;> rfl

/-- One agent output survives the serialization round trip. -/
theorem agentOutput_roundtrip (o : AgentOutput) :
    AgentOutput.fromJson (AgentOutput.toJson o) = some o := by
  cases o
  rfl

/-- The resolver on a response with at least one choice: the text with an
empty follow-up list, or the echoed assistant message followed by one tool
message per call. -/
theorem execute_tools_ok_of_choice (env : Env) (avail : String → Option ToolFn)
    (c : Choice) (rest : List Choice) :
    execute_tools_if_needed env ⟨c :: rest⟩ avail =
      Except.ok (pyOrOpt c.message.content "",
        if c.message.tool_calls.isEmpty then []
        else OutMessage.assistant c.message.content c.message.tool_calls ::
          c.message.tool_calls.map fun tool_call =>
            OutMessage.tool tool_call.id (run_tool_call env avail tool_call)) := by
  by_cases h : c.message.tool_calls.isEmpty <;>
    simp [execute_tools_if_needed, pyIndex, h]

/-- Python `s or d` is non-empty whenever the default is. -/
theorem pyOrOpt_ne_empty (v : Option String) (d : String) (hd : d ≠ "") :
    pyOrOpt v d ≠ "" := by
  cases v with
  | none => simp [pyOrOpt, hd]
  | some s =>
    simp only [pyOrOpt]
    by_cases hs : s = ""
    · simp [hs, hd]
    · simp [hs]

/-- A three-part concatenation with a non-empty head is non-empty. -/
theorem append3_ne_empty (pre mid post : String) (hpre : pre.length ≠ 0) :
    pre ++ mid ++ post ≠ "" := by
  intro h
  have hlen := congrArg String.length h
  simp [String.length_append] at hlen
  omega

/-- Every successful result of the agent-runner body carries a non-empty
output. -/
theorem execute_agent_body_ok_output (env : Env) (agent_name : String)
    (user_ctx : UserContexts) (agent_ctx : AgentContexts) (r : AgentOutput)
    (hbody : execute_agent_body env agent_name user_ctx agent_ctx = Except.ok r) :
    r.output ≠ "" := by
  simp only [execute_agent_body] at hbody
  split at hbody
  · cases hbody
    show ("죄송합니다. 현재 서비스에 일시적인 문제가 발생했습니다. 잠시 후 다시 시도해주세요." : String) ≠ ""
    decide
  · split at hbody
    · exact absurd hbody (by simp)
    · split at hbody
      · exact absurd hbody (by simp)
      · cases hbody
        exact pyOrOpt_ne_empty _ _ (by decide)

/-!  Claim theorems. -/

/-- C8: `add_agent_result` preserves the `AgentContexts` invariant — for a
context with `len(agent_id_history) == len(agent_output) == current_step`,
both history lists grow by exactly one element and `current_step` becomes
their common new length. -/
theorem C8_add_agent_result_preserves_invariant
    (ctx : AgentContexts) (agent_name : String) (output : AgentOutput)
    (hlen : ctx.agent_id_history.length = ctx.agent_output.length)
    (_hcur : (ctx.agent_id_history.length : Int) = ctx.current_step) :
    (ctx.add_agent_result agent_name output).agent_id_history.length
        = ctx.agent_id_history.length + 1
    ∧ (ctx.add_agent_result agent_name output).agent_output.length
        = ctx.agent_output.length + 1
    ∧ (ctx.add_agent_result agent_name output).current_step
        = ((ctx.add_agent_result agent_name output).agent_id_history.length : Int)
    ∧ (ctx.add_agent_result agent_name output).current_step
        = ((ctx.add_agent_result agent_name output).agent_output.length : Int) := by
  simp [AgentContexts.add_agent_result]
  omega

/-- C8 witness: the invariant-preservation theorem applied to a fresh
context. -/
theorem C8_witness :
    (agent_ctx0.add_agent_result "비비" ⟨false, "", ""⟩).agent_id_history.length
        = agent_ctx0.agent_id_history.length + 1
    ∧ (agent_ctx0.add_agent_result "비비" ⟨false, "", ""⟩).agent_output.length
        = agent_ctx0.agent_output.length + 1
    ∧ (agent_ctx0.add_agent_result "비비" ⟨false, "", ""⟩).current_step
        = ((agent_ctx0.add_agent_result "비비" ⟨false, "", ""⟩).agent_id_history.length : Int)
    ∧ (agent_ctx0.add_agent_result "비비" ⟨false, "", ""⟩).current_step
        = ((agent_ctx0.add_agent_result "비비" ⟨false, "", ""⟩).agent_output.length : Int) :=
  C8_add_agent_result_preserves_invariant agent_ctx0 "비비" ⟨false, "", ""⟩
    (by decide) (by decide)

/-- C5: against a transport failing on every attempt — whatever the failure
category of each attempt — `safe_llm_call_with_retry` with `max_retries =
r` performs exactly `r + 1` underlying attempts and returns the
`Unavailable` signal (`none`) instead of raising. -/
theorem C5_retry_exhaustion (env : Env) (messages : List OutMessage)
    (tools : Option (List String)) (max_retries : Nat)
    (hfail : ∀ i, i ≤ max_retries →
      ∃ e, env.transport messages tools i = Except.error e) :
    safe_llm_call_instr env messages tools max_retries = (none, max_retries + 1)
    ∧ safe_llm_call_with_retry env messages tools max_retries = none := by
  have h := safe_llm_call_go_all_fail (env.transport messages tools) max_retries
    (max_retries + 1) 0 (by omega) hfail
  constructor
  · simpa [safe_llm_call_instr] using h
  · simp only [safe_llm_call_with_retry, safe_llm_call_instr, h]

/-- C5 witness: the always-failing transport at `max_retries = 2` makes
exactly three attempts before yielding `none`. -/
theorem C5_witness :
    safe_llm_call_instr env_fail [] none 2 = (none, 2 + 1)
    ∧ safe_llm_call_with_retry env_fail [] none 2 = none :=
  C5_retry_exhaustion env_fail [] none 2
    (fun _ _ => ⟨ApiError.apiConnectionError, rfl⟩)

/-- C9: deserializing the serialization of a user context or of an agent
context yields an object field-for-field equal to the original, list
orders included. -/
theorem C9_serialization_roundtrip :
    (∀ ctx : UserContexts, UserContexts.from_json ctx.to_json = some ctx)
    ∧ (∀ ctx : AgentContexts, AgentContexts.from_json ctx.to_json = some ctx) := by
  constructor
  · intro ctx
    cases ctx with
    | mk user_info chat_history =>
      have h1 : optionMapM
          (fun kv =>
            match kv.2 with
            | JsonValue.str s => some (kv.1, s)
            | _ => none)
          (user_info.map fun kv => (kv.1, JsonValue.str kv.2)) = some user_info :=
        optionMapM_roundtrip _ _ (fun a => by cases a; rfl) user_info
      have h2 : optionMapM ChatMessage.fromJson
          (chat_history.map ChatMessage.toJson) = some chat_history :=
        optionMapM_roundtrip _ _ chatMessage_roundtrip chat_history
      simp [UserContexts.to_json, UserContexts.from_json, lookupField,
        fieldKeysSubset, h1, h2]
  · intro ctx
    cases ctx with
    | mk agent_id_history total_step current_step agent_output =>
      have h1 : optionMapM
          (fun e =>
            match e with
            | JsonValue.str s => some s
            | _ => none)
          (agent_id_history.map JsonValue.str) = some agent_id_history :=
        optionMapM_roundtrip JsonValue.str
          (fun e =>
            match e with
            | JsonValue.str s => some s
            | _ => none)
          (fun _ => rfl) agent_id_history
      have h2 : optionMapM AgentOutput.fromJson
          (agent_output.map AgentOutput.toJson) = some agent_output :=
        optionMapM_roundtrip _ _ agentOutput_roundtrip agent_output
      simp [AgentContexts.to_json, AgentContexts.from_json, lookupField,
        fieldKeysSubset, h1, h2]

/-- C4: the Agent Runner never propagates a fault — on a first-call
`Unavailable` it returns the fixed terminal apology directly from the body
without proceeding further, and any fault raised inside the turn is caught
at the boundary and converted into the terminal identity-scoped apology. -/
theorem C4_agent_runner_fault_boundary (env : Env) (agent_name : String)
    (user_ctx : UserContexts) (agent_ctx : AgentContexts) :
    (first_gateway_response env agent_name user_ctx agent_ctx = none →
      execute_agent_body env agent_name user_ctx agent_ctx
          = Except.ok (unavailable_output agent_name)
      ∧ execute_agent env agent_name user_ctx agent_ctx
          = unavailable_output agent_name
      ∧ (unavailable_output agent_name).final_output = true)
    ∧ (∀ f, execute_agent_body env agent_name user_ctx agent_ctx = Except.error f →
        execute_agent env agent_name user_ctx agent_ctx = error_output agent_name
        ∧ (error_output agent_name).final_output = true) := by
  constructor
  · intro hnone
    have hbody : execute_agent_body env agent_name user_ctx agent_ctx
        = Except.ok (unavailable_output agent_name) := by
      simp only [execute_agent_body, hnone]
    refine ⟨hbody, ?_, rfl⟩
    simp only [execute_agent, hbody]
  · intro f hf
    refine ⟨?_, rfl⟩
    simp only [execute_agent, hf]

/-- C4 witness: the boundary theorem applied to a transport that is always
unavailable, and to a transport whose response carries no choices (an
`IndexError` inside the turn). -/
theorem C4_witness :
    (first_gateway_response env_fail "아거" user_empty agent_ctx0 = none
      ∧ execute_agent env_fail "아거" user_empty agent_ctx0
          = unavailable_output "아거")
    ∧ (execute_agent_body env_empty_choices "아거" user_empty agent_ctx0
          = Except.error PyFault.indexError
      ∧ execute_agent env_empty_choices "아거" user_empty agent_ctx0
          = error_output "아거") :=
  ⟨⟨rfl,
    ((C4_agent_runner_fault_boundary env_fail "아거" user_empty agent_ctx0).1
      rfl).2.1⟩,
   ⟨rfl,
    ((C4_agent_runner_fault_boundary env_empty_choices "아거" user_empty
      agent_ctx0).2 PyFault.indexError rfl).1⟩⟩

/-- C6 counterexample: the claim quantifies over every model response, but
on a response carrying no choices the resolver's `response.choices[0]`
raises `IndexError` instead of returning. -/
theorem C6_counterexample :
    execute_tools_if_needed env_fail ⟨[]⟩ (TOOL_FUNCTIONS env_fail)
      = Except.error PyFault.indexError := rfl

/-- C6 (amended): for every model response carrying at least one choice
and every registry, the resolver returns without raising; with no tool
calls it returns the response text (`None` read as `\"\"`) and an empty
follow-up list; otherwise the follow-ups are the echoed assistant message
plus exactly one message per requested call, tagged with that call's
identifier and carrying the tool result or the synthesized error string
for an argument-decode failure, an unknown tool, or a raising tool. -/
theorem C6_resolver_never_raises (env : Env) (avail : String → Option ToolFn)
    (response : LLMResponse) (c : Choice) (rest : List Choice)
    (hchoices : response.choices = c :: rest) :
    (∃ result, execute_tools_if_needed env response avail = Except.ok result)
    ∧ (c.message.tool_calls = [] →
        execute_tools_if_needed env response avail =
          Except.ok (pyOrOpt c.message.content "", []))
    ∧ (c.message.tool_calls ≠ [] →
        execute_tools_if_needed env response avail =
          Except.ok (pyOrOpt c.message.content "",
            OutMessage.assistant c.message.content c.message.tool_calls ::
              c.message.tool_calls.map fun tool_call =>
                OutMessage.tool tool_call.id (run_tool_call env avail tool_call))
        ∧ (c.message.tool_calls.map fun tool_call =>
            OutMessage.tool tool_call.id
              (run_tool_call env avail tool_call)).length
            = c.message.tool_calls.length
        ∧ ∀ (i : Nat) (tool_call : ToolCall),
            c.message.tool_calls[i]? = some tool_call →
            (c.message.tool_calls.map fun tc =>
              OutMessage.tool tc.id (run_tool_call env avail tc))[i]?
              = some (OutMessage.tool tool_call.id
                  (run_tool_call env avail tool_call)))
    ∧ (∀ tool_call : ToolCall,
        (env.jsonLoads tool_call.function.arguments = none →
          run_tool_call env avail tool_call =
            "오류: " ++ tool_call.function.name ++ "의 인자 파싱 실패")
        ∧ (∀ args, env.jsonLoads tool_call.function.arguments = some args →
            avail tool_call.function.name = none →
            run_tool_call env avail tool_call =
              "오류: 알 수 없는 도구 \x27" ++ tool_call.function.name ++ "\x27")
        ∧ (∀ args f e, env.jsonLoads tool_call.function.arguments = some args →
            avail tool_call.function.name = some f →
            f args = Except.error e →
            run_tool_call env avail tool_call =
              "오류: " ++ tool_call.function.name ++ " 실행 중 오류 발생 - " ++ e)
        ∧ (∀ args f r, env.jsonLoads tool_call.function.arguments = some args →
            avail tool_call.function.name = some f →
            f args = Except.ok r →
            run_tool_call env avail tool_call = r)) := by
  obtain ⟨choices⟩ := response
  cases hchoices
  have hok := execute_tools_ok_of_choice env avail c rest
  refine ⟨⟨_, hok⟩, ?_, ?_, ?_⟩
  · intro hempty
    simpa [hempty] using hok
  · intro hne
    have : c.message.tool_calls.isEmpty = false := by
      simpa [List.isEmpty_iff] using hne
    refine ⟨by simpa [this] using hok, by simp, ?_⟩
    intro i tool_call hi
    simp [List.getElem?_map, hi]
  · intro tool_call
    refine ⟨?_, ?_, ?_, ?_⟩
    · intro hdec
      simp [run_tool_call, hdec]
    · intro args hdec habs
      simp [run_tool_call, hdec, habs]
    · intro args f e hdec hsome hraise
      simp [run_tool_call, hdec, hsome, hraise]
    · intro args f r hdec hsome hret
      simp [run_tool_call, hdec, hsome, hret]

/-- C6 witness: the characterization applied to a one-call response whose
argument text fails to decode. -/
theorem C6_witness :
    (∃ result, execute_tools_if_needed env_fail response_one_call
        (TOOL_FUNCTIONS env_fail) = Except.ok result)
    ∧ run_tool_call env_fail (TOOL_FUNCTIONS env_fail)
        ⟨"call_1", "function", ⟨"get_stock_price", "bad json"⟩⟩
      = "오류: get_stock_price의 인자 파싱 실패" :=
  ⟨(C6_resolver_never_raises env_fail (TOOL_FUNCTIONS env_fail)
      response_one_call
      ⟨⟨some "조회 중",
        [⟨"call_1", "function", ⟨"get_stock_price", "bad json"⟩⟩]⟩⟩ [] rfl).1,
   ((C6_resolver_never_raises env_fail (TOOL_FUNCTIONS env_fail)
      response_one_call
      ⟨⟨some "조회 중",
        [⟨"call_1", "function", ⟨"get_stock_price", "bad json"⟩⟩]⟩⟩ [] rfl).2.2.2
      ⟨"call_1", "function", ⟨"get_stock_price", "bad json"⟩⟩).1 rfl⟩

/-- C7: every AgentOutput produced by the Agent Runner — normal
completion, gateway unavailability, second-call fallback, or caught
fault — has a non-empty output field. -/
theorem C7_agent_output_nonempty (env : Env) (agent_name : String)
    (user_ctx : UserContexts) (agent_ctx : AgentContexts) :
    (execute_agent env agent_name user_ctx agent_ctx).output ≠ "" := by
  unfold execute_agent
  cases hbody : execute_agent_body env agent_name user_ctx agent_ctx with
  | ok r =>
    exact execute_agent_body_ok_output env agent_name user_ctx agent_ctx r hbody
  | error f =>
    show (error_output agent_name).output ≠ ""
    exact append3_ne_empty "죄송합니다. " agent_name
      " 실행 중 오류가 발생했습니다. 다시 시도해주세요." (by decide)

/-!  Step-loop lemmas for the Plan Executor claims. -/

/-- One step keeps `total_step` unchanged. -/
theorem plan_step_run_total (env : Env) (user_ctx : UserContexts)
    (agent_ctx : AgentContexts) (step_plan : PlanStep) :
    (plan_step_run env user_ctx agent_ctx step_plan).total_step
      = agent_ctx.total_step := rfl

/-- One step appends the step's identity to the history. -/
theorem plan_step_run_history (env : Env) (user_ctx : UserContexts)
    (agent_ctx : AgentContexts) (step_plan : PlanStep) :
    (plan_step_run env user_ctx agent_ctx step_plan).agent_id_history
      = agent_ctx.agent_id_history ++ [step_plan.agent_name] := rfl

/-- One step appends the resolved executor's result to the outputs. -/
theorem plan_step_run_output (env : Env) (user_ctx : UserContexts)
    (agent_ctx : AgentContexts) (step_plan : PlanStep) :
    (plan_step_run env user_ctx agent_ctx step_plan).agent_output
      = agent_ctx.agent_output ++
          [execute_agent env (resolve_executor step_plan.agent_name) user_ctx
             agent_ctx] := rfl

/-- One step sets `current_step` to the incremented history length. -/
theorem plan_step_run_current (env : Env) (user_ctx : UserContexts)
    (agent_ctx : AgentContexts) (step_plan : PlanStep) :
    (plan_step_run env user_ctx agent_ctx step_plan).current_step
      = (agent_ctx.agent_id_history.length : Int) + 1 := by
  simp [plan_step_run, AgentContexts.add_agent_result]

/-- The step loop keeps `total_step` unchanged. -/
theorem run_steps_total (env : Env) (user_ctx : UserContexts) :
    ∀ (steps : List PlanStep) (agent_ctx : AgentContexts),
      (run_steps env user_ctx steps agent_ctx).total_step
        = agent_ctx.total_step := by
  intro steps
  induction steps with
  | nil => intro agent_ctx; rfl
  | cons step rest ih =>
    intro agent_ctx
    rw [run_steps, ih, plan_step_run_total]

/-- The step loop appends exactly the step identities, in plan order. -/
theorem run_steps_history (env : Env) (user_ctx : UserContexts) :
    ∀ (steps : List PlanStep) (agent_ctx : AgentContexts),
      (run_steps env user_ctx steps agent_ctx).agent_id_history
        = agent_ctx.agent_id_history ++ steps.map PlanStep.agent_name := by
  intro steps
  induction steps with
  | nil => intro agent_ctx; simp [run_steps]
  | cons step rest ih =>
    intro agent_ctx
    rw [run_steps, ih, plan_step_run_history]
    simp

/-- The step loop appends exactly the execution trace of the steps. -/
theorem run_steps_output (env : Env) (user_ctx : UserContexts) :
    ∀ (steps : List PlanStep) (agent_ctx : AgentContexts),
      (run_steps env user_ctx steps agent_ctx).agent_output
        = agent_ctx.agent_output ++ outputs_trace env user_ctx steps agent_ctx := by
  intro steps
  induction steps with
  | nil => intro agent_ctx; simp [run_steps, outputs_trace]
  | cons step rest ih =>
    intro agent_ctx
    rw [run_steps, ih, outputs_trace]
    simp [plan_step_run_output]

/-- The trace has one output per plan step. -/
theorem outputs_trace_length (env : Env) (user_ctx : UserContexts) :
    ∀ (steps : List PlanStep) (agent_ctx : AgentContexts),
      (outputs_trace env user_ctx steps agent_ctx).length = steps.length := by
  intro steps
  induction steps with
  | nil => intro agent_ctx; rfl
  | cons step rest ih => intro agent_ctx; simp [outputs_trace, ih]

/-- The step loop maintains `current_step = len(agent_id_history)`. -/
theorem run_steps_current (env : Env) (user_ctx : UserContexts) :
    ∀ (steps : List PlanStep) (agent_ctx : AgentContexts),
      agent_ctx.current_step = (agent_ctx.agent_id_history.length : Int) →
      (run_steps env user_ctx steps agent_ctx).current_step
        = ((run_steps env user_ctx steps agent_ctx).agent_id_history.length : Int) := by
  intro steps
  induction steps with
  | nil => intro agent_ctx hinv; exact hinv
  | cons step rest ih =>
    intro agent_ctx hinv
    rw [run_steps]
    exact ih _ (by rw [plan_step_run_current, plan_step_run_history]; simp)

/-- C1 (amended): for every plan whose declared `total_steps` equals the
number of plan entries, the completed execution satisfies
`len(agent_id_history) == len(agent_output) == total_steps`, with
`total_step` initialized from `plan.total_steps`; for a plan violating
that well-formedness the histories instead have length `len(plan.plans)`. -/
theorem C1_completed_plan_lengths (env : Env) (plan : AgentPlan)
    (user_ctx : UserContexts)
    (hwf : plan.total_steps = (plan.plans.length : Int)) :
    (execute_plan env plan user_ctx).agent_id_history.length = plan.plans.length
    ∧ (execute_plan env plan user_ctx).agent_output.length = plan.plans.length
    ∧ ((execute_plan env plan user_ctx).agent_id_history.length : Int)
        = (execute_plan env plan user_ctx).total_step
    ∧ ((execute_plan env plan user_ctx).agent_output.length : Int)
        = (execute_plan env plan user_ctx).total_step
    ∧ (execute_plan env plan user_ctx).total_step = plan.total_steps := by
  unfold execute_plan
  rw [run_steps_history, run_steps_output, run_steps_total]
  simp [outputs_trace_length, hwf]

/-- C1 witness: the length theorem applied to a well-formed two-step plan
under an unavailable gateway. -/
theorem C1_witness :
    (execute_plan env_fail plan_two_steps user_empty).agent_id_history.length
        = plan_two_steps.plans.length
    ∧ (execute_plan env_fail plan_two_steps user_empty).agent_output.length
        = plan_two_steps.plans.length
    ∧ ((execute_plan env_fail plan_two_steps user_empty).agent_id_history.length : Int)
        = (execute_plan env_fail plan_two_steps user_empty).total_step
    ∧ ((execute_plan env_fail plan_two_steps user_empty).agent_output.length : Int)
        = (execute_plan env_fail plan_two_steps user_empty).total_step
    ∧ (execute_plan env_fail plan_two_steps user_empty).total_step
        = plan_two_steps.total_steps :=
  C1_completed_plan_lengths env_fail plan_two_steps user_empty (by decide)

/-- C1 counterexample: the step loop iterates over `plan.plans`, so a plan
declaring `total_steps = 2` with a single entry — a shape the planner's
decoded path can return — completes with history length 1 ≠ `total_step`. -/
theorem C1_counterexample :
    ¬ (((execute_plan env_fail plan_mismatched user_empty).agent_id_history.length : Int)
        = (execute_plan env_fail plan_mismatched user_empty).total_step) := by
  decide

/-- C10: `execute_plan` runs exactly one agent per entry of `plan.plans`
in list order, recording the step identities verbatim; the declared
`total_steps` value has no effect on how many steps run, only on the
`total_step` field; a step naming an unregistered identity is run by the
default executor (비비) while its own name is recorded. -/
theorem C10_plan_executor_dispatch :
    (∀ (env : Env) (plan : AgentPlan) (user_ctx : UserContexts),
      (execute_plan env plan user_ctx).agent_id_history
        = plan.plans.map PlanStep.agent_name)
    ∧ (∀ (env : Env) (plan : AgentPlan) (user_ctx : UserContexts),
        (execute_plan env plan user_ctx).agent_output.length = plan.plans.length)
    ∧ (∀ (env : Env) (plan : AgentPlan) (user_ctx : UserContexts) (t : Int),
        (execute_plan env { plan with total_steps := t } user_ctx).agent_output.length
          = (execute_plan env plan user_ctx).agent_output.length)
    ∧ (∀ (env : Env) (plan : AgentPlan) (user_ctx : UserContexts),
        (execute_plan env plan user_ctx).total_step = plan.total_steps)
    ∧ (∀ (env : Env) (user_ctx : UserContexts) (agent_ctx : AgentContexts)
          (step_plan : PlanStep), step_plan.agent_name ∈ AGENT_EXECUTOR_NAMES →
        plan_step_run env user_ctx agent_ctx step_plan
          = agent_ctx.add_agent_result step_plan.agent_name
              (execute_agent env step_plan.agent_name user_ctx agent_ctx))
    ∧ (∀ (env : Env) (user_ctx : UserContexts) (agent_ctx : AgentContexts)
          (step_plan : PlanStep), step_plan.agent_name ∉ AGENT_EXECUTOR_NAMES →
        plan_step_run env user_ctx agent_ctx step_plan
          = agent_ctx.add_agent_result step_plan.agent_name
              (execute_agent env "비비" user_ctx agent_ctx)) := by
  refine ⟨?_, ?_, ?_, ?_, ?_, ?_⟩
  · intro env plan user_ctx
    unfold execute_plan
    rw [run_steps_history]
    simp
  · intro env plan user_ctx
    unfold execute_plan
    rw [run_steps_output]
    simp [outputs_trace_length]
  · intro env plan user_ctx t
    unfold execute_plan
    rw [run_steps_output, run_steps_output]
    simp [outputs_trace_length]
  · intro env plan user_ctx
    unfold execute_plan
    rw [run_steps_total]
  · intro env user_ctx agent_ctx step_plan hmem
    simp [plan_step_run, resolve_executor, hmem]
  · intro env user_ctx agent_ctx step_plan hmem
    simp [plan_step_run, resolve_executor, hmem]

/-- C10 witness: a step naming the unregistered identity 만수르 runs the
default executor while recording 만수르 in the history. -/
theorem C10_witness :
    plan_step_run env_fail user_empty agent_ctx0 ⟨"만수르", "테스트", []⟩
      = agent_ctx0.add_agent_result "만수르"
          (execute_agent env_fail "비비" user_empty agent_ctx0) :=
  C10_plan_executor_dispatch.2.2.2.2.2 env_fail user_empty agent_ctx0
    ⟨"만수르", "테스트", []⟩ (by decide)

/-!  Behaviour under an always-available gateway. -/

/-- With an always-available transport, the gateway returns a response
with at least one choice on the very first attempt. -/
theorem safe_llm_call_of_available (env : Env) (hav : env.alwaysAvailable)
    (messages : List OutMessage) (tools : Option (List String))
    (max_retries : Nat) :
    ∃ r, safe_llm_call_with_retry env messages tools max_retries = some r
      ∧ r.choices ≠ [] := by
  obtain ⟨r, hr, hc⟩ := hav messages tools 0
  exact ⟨r,
    by simp [safe_llm_call_with_retry, safe_llm_call_instr, safe_llm_call_go, hr],
    hc⟩

/-- With an always-available gateway the agent-runner body completes
normally, packaging `is_final = current_step + 1 >= total_step` computed
on the pre-append context. -/
theorem execute_agent_body_of_available (env : Env) (hav : env.alwaysAvailable)
    (agent_name : String) (user_ctx : UserContexts) (agent_ctx : AgentContexts) :
    ∃ final_content, execute_agent_body env agent_name user_ctx agent_ctx
      = Except.ok
          { final_output :=
              decide (agent_ctx.current_step + 1 ≥ agent_ctx.total_step),
            progress_description := agent_name ++ "의 작업 완료",
            output := pyOrOpt final_content "응답을 생성할 수 없습니다." } := by
  obtain ⟨r1, hr1, hc1⟩ := safe_llm_call_of_available env hav
    (agent_messages env agent_name user_ctx agent_ctx)
    (agent_tools_param agent_name) 2
  obtain ⟨choices1⟩ := r1
  obtain ⟨c1, rest1, rfl⟩ := List.exists_cons_of_ne_nil hc1
  have hfirst : first_gateway_response env agent_name user_ctx agent_ctx
      = some ⟨c1 :: rest1⟩ := hr1
  simp only [execute_agent_body, hfirst]
  rw [execute_tools_ok_of_choice]
  by_cases htc : c1.message.tool_calls.isEmpty
  · refine ⟨some (pyOrOpt c1.message.content ""), ?_⟩
    simp [htc]
  · obtain ⟨r2, hr2, hc2⟩ := safe_llm_call_of_available env hav
      (agent_messages env agent_name user_ctx agent_ctx ++
        (OutMessage.assistant c1.message.content c1.message.tool_calls ::
          c1.message.tool_calls.map fun tool_call =>
            OutMessage.tool tool_call.id
              (run_tool_call env (TOOL_FUNCTIONS env) tool_call)))
      none 2
    obtain ⟨choices2⟩ := r2
    obtain ⟨c2, rest2, rfl⟩ := List.exists_cons_of_ne_nil hc2
    refine ⟨c2.message.content, ?_⟩
    simp [htc, hr2, pyIndex]

/-- With an always-available gateway the runner's finality flag is exactly
the pre-append step comparison. -/
theorem execute_agent_final_of_available (env : Env) (hav : env.alwaysAvailable)
    (agent_name : String) (user_ctx : UserContexts) (agent_ctx : AgentContexts) :
    (execute_agent env agent_name user_ctx agent_ctx).final_output
      = decide (agent_ctx.current_step + 1 ≥ agent_ctx.total_step) := by
  obtain ⟨fc, hbody⟩ :=
    execute_agent_body_of_available env hav agent_name user_ctx agent_ctx
  simp [execute_agent, hbody]

/-- On every path the runner's finality flag is either hard-coded `true`
(unavailability and fault apologies) or the pre-append step comparison. -/
theorem execute_agent_final_or (env : Env) (agent_name : String)
    (user_ctx : UserContexts) (agent_ctx : AgentContexts) :
    (execute_agent env agent_name user_ctx agent_ctx).final_output = true
    ∨ (execute_agent env agent_name user_ctx agent_ctx).final_output
        = decide (agent_ctx.current_step + 1 ≥ agent_ctx.total_step) := by
  unfold execute_agent
  cases hbody : execute_agent_body env agent_name user_ctx agent_ctx with
  | error f => left; rfl
  | ok r =>
    simp only [execute_agent_body] at hbody
    split at hbody
    · cases hbody
      left
      rfl
    · split at hbody
      · exact absurd hbody (by simp)
      · split at hbody
        · exact absurd hbody (by simp)
        · cases hbody
          right
          rfl

/-- Under an always-available gateway, the `i`-th trace output carries the
flag `current_step + 1 + i >= total_step` of the starting context. -/
theorem outputs_trace_flags_of_available (env : Env) (user_ctx : UserContexts)
    (hav : env.alwaysAvailable) :
    ∀ (steps : List PlanStep) (agent_ctx : AgentContexts),
      agent_ctx.current_step = (agent_ctx.agent_id_history.length : Int) →
      ∀ i : Nat, i < steps.length →
        ((outputs_trace env user_ctx steps agent_ctx)[i]?).map
            AgentOutput.final_output
          = some (decide (agent_ctx.current_step + 1 + (i : Int)
              ≥ agent_ctx.total_step)) := by
  intro steps
  induction steps with
  | nil => intro agent_ctx _ i hi; simp at hi
  | cons step rest ih =>
    intro agent_ctx hinv i hi
    cases i with
    | zero =>
      simp only [outputs_trace, List.getElem?_cons_zero, Option.map_some']
      rw [execute_agent_final_of_available env hav]
      congr 1
      rw [decide_eq_decide]
      omega
    | succ j =>
      simp only [outputs_trace, List.getElem?_cons_succ]
      have hinv2 : (plan_step_run env user_ctx agent_ctx step).current_step
          = ((plan_step_run env user_ctx agent_ctx step).agent_id_history.length : Int) := by
        rw [plan_step_run_current, plan_step_run_history]
        simp
      rw [ih (plan_step_run env user_ctx agent_ctx step) hinv2 j (by simpa using hi)]
      congr 1
      rw [decide_eq_decide]
      rw [plan_step_run_current, plan_step_run_total]
      omega

/-- On every path, the `i`-th trace output's flag is `true` or the step
comparison of the starting context. -/
theorem outputs_trace_flags_or (env : Env) (user_ctx : UserContexts) :
    ∀ (steps : List PlanStep) (agent_ctx : AgentContexts),
      agent_ctx.current_step = (agent_ctx.agent_id_history.length : Int) →
      ∀ i : Nat, i < steps.length →
        ((outputs_trace env user_ctx steps agent_ctx)[i]?).map
            AgentOutput.final_output = some true
        ∨ ((outputs_trace env user_ctx steps agent_ctx)[i]?).map
            AgentOutput.final_output
          = some (decide (agent_ctx.current_step + 1 + (i : Int)
              ≥ agent_ctx.total_step)) := by
  intro steps
  induction steps with
  | nil => intro agent_ctx _ i hi; simp at hi
  | cons step rest ih =>
    intro agent_ctx hinv i hi
    cases i with
    | zero =>
      simp only [outputs_trace, List.getElem?_cons_zero, Option.map_some']
      cases execute_agent_final_or env (resolve_executor step.agent_name)
          user_ctx agent_ctx with
      | inl h => left; rw [h]
      | inr h =>
        right
        rw [h]
        congr 1
        rw [decide_eq_decide]
        omega
    | succ j =>
      simp only [outputs_trace, List.getElem?_cons_succ]
      have hinv2 : (plan_step_run env user_ctx agent_ctx step).current_step
          = ((plan_step_run env user_ctx agent_ctx step).agent_id_history.length : Int) := by
        rw [plan_step_run_current, plan_step_run_history]
        simp
      cases ih (plan_step_run env user_ctx agent_ctx step) hinv2 j
          (by simpa using hi) with
      | inl h => left; exact h
      | inr h =>
        right
        rw [h]
        congr 1
        rw [decide_eq_decide]
        rw [plan_step_run_current, plan_step_run_total]
        omega

/-- C3 counterexample: on a well-formed two-step plan whose first turn
hits an unavailable gateway, the first (non-last) recorded output carries
`is_final = true`, because the unavailability apology hard-codes it —
refuting "when total_steps > 1 every preceding element has is_final =
false" as a property of every completed execution. -/
theorem C3_counterexample :
    plan_two_steps.total_steps = 2
    ∧ plan_two_steps.total_steps = (plan_two_steps.plans.length : Int)
    ∧ (execute_plan env_fail plan_two_steps user_empty).agent_output.length = 2
    ∧ ((execute_plan env_fail plan_two_steps user_empty).agent_output[0]?).map
        AgentOutput.final_output = some true := by
  decide

/-- C3 (amended): for a well-formed non-empty plan (`total_steps ==
len(plans)`), the last recorded output always has `is_final = true`; when
additionally every turn completes normally (always-available gateway),
every preceding output has `is_final = false`; and on the normal path the
runner computes `is_final = (current_step + 1) >= total_step` on the
context before the result is appended.  Fallback turns (gateway
unavailability or caught fault) instead hard-code `is_final = true`. -/
theorem C3_finality_flags (env : Env) (plan : AgentPlan) (user_ctx : UserContexts)
    (hwf : plan.total_steps = (plan.plans.length : Int))
    (hne : plan.plans ≠ []) :
    ((execute_plan env plan user_ctx).agent_output.getLast?).map
        AgentOutput.final_output = some true
    ∧ (env.alwaysAvailable →
        ∀ i : Nat, i + 1 < (execute_plan env plan user_ctx).agent_output.length →
          ((execute_plan env plan user_ctx).agent_output[i]?).map
              AgentOutput.final_output = some false)
    ∧ (∀ (agent_name : String) (u2 : UserContexts) (ctx2 : AgentContexts),
        env.alwaysAvailable →
        (execute_agent env agent_name u2 ctx2).final_output
          = decide (ctx2.current_step + 1 ≥ ctx2.total_step)) := by
  have hout : (execute_plan env plan user_ctx).agent_output
      = outputs_trace env user_ctx plan.plans
          { agent_id_history := [], total_step := plan.total_steps,
            current_step := 0, agent_output := [] } := by
    unfold execute_plan
    rw [run_steps_output]
    simp
  have hlen : (outputs_trace env user_ctx plan.plans
      { agent_id_history := [], total_step := plan.total_steps,
        current_step := 0, agent_output := [] }).length = plan.plans.length :=
    outputs_trace_length env user_ctx plan.plans _
  have hpos : 0 < plan.plans.length := List.length_pos.mpr hne
  refine ⟨?_, ?_, ?_⟩
  · rw [hout, List.getLast?_eq_getElem?, hlen]
    have hor := outputs_trace_flags_or env user_ctx plan.plans
      { agent_id_history := [], total_step := plan.total_steps,
        current_step := 0, agent_output := [] } (by simp)
      (plan.plans.length - 1) (by omega)
    have hdec : decide ((0 : Int) + 1 + ((plan.plans.length - 1 : Nat) : Int)
        ≥ plan.total_steps) = true := by
      rw [decide_eq_true_eq, hwf]
      omega
    cases hor with
    | inl h => exact h
    | inr h => rw [h]; simp only [hdec]
  · intro hav i hi
    rw [hout] at hi ⊢
    rw [hlen] at hi
    rw [outputs_trace_flags_of_available env user_ctx hav plan.plans _ (by simp)
      i (by omega)]
    have hdec : decide ((0 : Int) + 1 + (i : Int) ≥ plan.total_steps) = false := by
      rw [decide_eq_false_iff_not, hwf]
      omega
    simp only [hdec]
  · intro agent_name u2 ctx2 hav
    exact execute_agent_final_of_available env hav agent_name u2 ctx2

/-- C3 witness: the finality theorem applied to a well-formed two-step
plan (last recorded output is final). -/
theorem C3_witness :
    ((execute_plan env_fail plan_two_steps user_empty).agent_output.getLast?).map
        AgentOutput.final_output = some true :=
  (C3_finality_flags env_fail plan_two_steps user_empty (by decide) (by decide)).1

/-- C2 counterexample: the decoded path copies `total_steps` from the
model's payload without checking it against `len(plans)`; a payload
declaring two steps while listing one yields an `AgentPlan` with
`total_steps ≠ len(plans)`. -/
theorem C2_counterexample :
    (execute_manager env_mismatched_plan user_empty agent_ctx0).total_steps
      ≠ ((execute_manager env_mismatched_plan user_empty agent_ctx0).plans.length : Int) := by
  decide

/-- C2 (amended): `execute_manager` is total — every gateway
unavailability yields the fixed one-step fallback plan, every fault caught
at the boundary yields the fixed one-step error plan, and a plan-decode
failure yields the one-step keyword-scan plan; all three fallback plans
satisfy `total_steps == len(plans) == 1`.  A successfully decoded payload,
however, is copied into the plan unvalidated, so `total_steps ==
len(plans)` holds for it only when the model's payload says so. -/
theorem C2_planner_characterization (env : Env) (user_ctx : UserContexts)
    (agent_ctx : AgentContexts) :
    (manager_first_response env user_ctx agent_ctx = none →
      execute_manager env user_ctx agent_ctx = manager_fallback_unavailable)
    ∧ (∀ f, execute_manager_body env user_ctx agent_ctx = Except.error f →
        execute_manager env user_ctx agent_ctx = manager_fallback_error)
    ∧ (∀ r c rest s, manager_first_response env user_ctx agent_ctx = some r →
        r.choices = c :: rest → c.message.content = some s →
        env.decodePlan (extract_json_content s) = PlanDecode.jsonError →
        execute_manager env user_ctx agent_ctx = manager_fallback_keyword s)
    ∧ (∀ r c rest s d, manager_first_response env user_ctx agent_ctx = some r →
        r.choices = c :: rest → c.message.content = some s →
        env.decodePlan (extract_json_content s) = PlanDecode.ok d →
        execute_manager env user_ctx agent_ctx
          = { total_steps := d.total_steps.getD 1, plans := d.plans.getD [],
              mode := d.mode.getD "chat" })
    ∧ (manager_fallback_unavailable.total_steps
          = (manager_fallback_unavailable.plans.length : Int)
      ∧ manager_fallback_error.total_steps
          = (manager_fallback_error.plans.length : Int)
      ∧ ∀ s, (manager_fallback_keyword s).total_steps
          = ((manager_fallback_keyword s).plans.length : Int)) := by
  refine ⟨?_, ?_, ?_, ?_, by decide, by decide, fun s => by simp [manager_fallback_keyword]⟩
  · intro hnone
    have hbody : execute_manager_body env user_ctx agent_ctx
        = Except.ok manager_fallback_unavailable := by
      simp only [execute_manager_body, hnone]
    simp only [execute_manager, hbody]
  · intro f hf
    simp only [execute_manager, hf]
  · intro r c rest s hsome hchoices hcontent hdecode
    obtain ⟨choices⟩ := r
    cases hchoices
    have hbody : execute_manager_body env user_ctx agent_ctx
        = Except.ok (manager_fallback_keyword s) := by
      simp only [execute_manager_body, hsome, pyIndex, List.get?, hcontent, hdecode]
    simp only [execute_manager, hbody]
  · intro r c rest s d hsome hchoices hcontent hdecode
    obtain ⟨choices⟩ := r
    cases hchoices
    have hbody : execute_manager_body env user_ctx agent_ctx
        = Except.ok { total_steps := d.total_steps.getD 1,
                      plans := d.plans.getD [],
                      mode := d.mode.getD "chat" } := by
      simp only [execute_manager_body, hsome, pyIndex, List.get?, hcontent, hdecode]
    simp only [execute_manager, hbody]

/-- C2 witness: the planner characterization applied to an always-failing
transport — the fixed one-step fallback plan is returned. -/
theorem C2_witness :
    execute_manager env_fail user_empty agent_ctx0 = manager_fallback_unavailable :=
  (C2_planner_characterization env_fail user_empty agent_ctx0).1 rfl

end Stargent
